import Mathlib

/-
Verification development for the Scrap2Bot object-detection engine
(src/objectdetector.rs), shallowly embedded in Lean 4.

Modelling conventions:
- `usize`/`u32` become `Nat`; `u32` wrapping addition is written with an
  explicit `% 4294967296`; `saturating_sub` is `Nat` subtraction.
- `i32` becomes `Int`; the Rust saturating `f64 as i32` cast is modelled
  by `i32cast` (truncation toward zero, clamped to the i32 range).
- `f64`/`f32` values are modelled over `ℚ`; the only float behaviour the
  claims distinguish beyond exact arithmetic is NaN, so detection
  confidences (whose `partial_cmp(..).unwrap()` can panic on NaN) use the
  two-constructor type `F64` = `nan | fin ℚ`.  The f32 distance test
  `sqrt(dx^2+dy^2) < min_dist` is modelled exactly as
  `0 < min_dist ∧ dx^2 + dy^2 < min_dist^2`, its real-arithmetic meaning.
- OpenCV image buffers (`Mat`) and the image operations on them are not
  pixel-modelled: each fallible per-template operation (template resize,
  correlation, threshold, mask conversion) is abstracted by a success
  flag, and the `min_max_loc` extraction loop by the finite stream of
  outcomes it observes (`LoopStep`), which is exactly the control-flow
  state the error-handling and coordinate claims are about.
-/

/-- Confidence value of a detection: an f64 that is either NaN or an exact
(rational-modelled) number. -/
inductive F64 where
  | nan : F64
  | fin (q : ℚ) : F64
deriving DecidableEq

/-- Model of Rust `f64::partial_cmp`: defined on two non-NaN values,
`none` when either side is NaN. -/
def F64.pcmp : F64 → F64 → Option Ordering
  | .fin a, .fin b => some (compare a b)
  | _, _ => none

/-- Whitespace-splitting of a character list, skipping empty pieces:
model of Rust `str::split_whitespace` (`cur` is the reversed current
token being accumulated). -/
def splitWsAux : List Char → List Char → List (List Char)
  | [], cur => if cur = [] then [] else [cur.reverse]
  | c :: rest, cur =>
      if c.isWhitespace then
        if cur = [] then splitWsAux rest []
        else cur.reverse :: splitWsAux rest []
      else splitWsAux rest (c :: cur)

/-- Model of Rust `str::parse::<u32>`: an optional leading plus sign, then
one or more ASCII digits, value below 2^32; anything else fails. -/
def parseU32Chars (cs : List Char) : Option Nat :=
  let ds := match cs with
    | '+' :: rest => rest
    | _ => cs
  if ds ≠ [] ∧ ds.all Char.isDigit then
    let v := ds.foldl (fun a c => a * 10 + (c.toNat - 48)) 0
    if v < 4294967296 then some v else none
  else none

/-- The level parsed from a template or detection name:
`name.split_whitespace().last().and_then(|s| s.parse::<u32>().ok())`. -/
def parseTrailingNum (s : String) : Option Nat :=
  (splitWsAux s.toList []).getLast?.bind parseU32Chars

/-- Template record (`ObjectTemplate`), with the image buffers (`template`,
`gray_template`) abstracted away: no claim touches pixel data. -/
structure ObjectTemplate where
  name : String
  threshold : ℚ
  min_distance : ℚ
  red : ℚ
  green : ℚ
  blue : ℚ
  resolution : Option ℚ
  always_active : Bool
deriving DecidableEq

/-- One located match (`DetectionResult`): name, top-left point in original
frame coordinates (i32 pair), correlation score. -/
structure DetectionResult where
  object_name : String
  location : Int × Int
  confidence : F64
deriving DecidableEq

/-- Detector state (`ObjectDetector`). -/
structure ObjectDetector where
  templates : List ObjectTemplate
  base_scale_factor : ℚ
  active_range : Nat × Nat
  full_range : Bool
  use_cuda : Bool
deriving DecidableEq

/-- `ObjectDetector::new` on a machine without CUDA: empty store, range
(0,0), full-range flag set. -/
def ObjectDetector.new (base_scale_factor : ℚ) : ObjectDetector :=
  { templates := [],
    base_scale_factor := base_scale_factor,
    active_range := (0, 0),
    full_range := true,
    use_cuda := false }

/-- Wrapping u32 arithmetic (Rust release-mode overflow semantics). -/
def u32wrap (n : Nat) : Nat := n % 4294967296

/-- One iteration of the full-range-branch scan loop of
`update_active_range` (fold state is the `(start, end)` pair, the item is
the `(index, template)` pair from `enumerate`).  Faithful to the source,
including the `i < start || start == 0` and
`i > end || end == len-1` guards. -/
def scanStep (len newMin newMax : Nat) (acc : Nat × Nat)
    (it : Nat × ObjectTemplate) : Nat × Nat :=
  match parseTrailingNum it.2.name with
  | some num =>
      if newMin ≤ num ∧ num ≤ newMax then
        (if it.1 < acc.1 ∨ acc.1 = 0 then it.1 else acc.1,
         if acc.2 < it.1 ∨ acc.2 = len - 1 then it.1 else acc.2)
      else acc
  | none => acc

/-- `ObjectDetector::update_active_range`.  Empty detections reset to full
range; in full-range state the store is scanned for indices whose parsed
numeric suffix lies in `[min-5, max+8]`; in narrowed state bounds expand
to `min(current_start, min-3)` / `max(current_end, max+3)`; all results
are clamped with `.min(len-1)`. -/
def updateActiveRange (d : ObjectDetector) (detected : List Nat) : ObjectDetector :=
  match detected with
  | [] =>
      { d with active_range := (0, d.templates.length - 1), full_range := true }
  | n :: rest =>
      let minDetected := rest.foldl Nat.min n
      let maxDetected := rest.foldl Nat.max n
      let len := d.templates.length
      if d.full_range then
        let newMin := minDetected - 5
        let newMax := u32wrap (maxDetected + 8)
        let se := d.templates.enum.foldl (scanStep len newMin newMax) (0, len - 1)
        { d with active_range := (min se.1 (len - 1), min se.2 (len - 1)),
                 full_range := false }
      else
        let newMin := minDetected - 3
        let newMax := u32wrap (maxDetected + 3)
        let newStart := if newMin < d.active_range.1 then newMin else d.active_range.1
        let newEnd := if d.active_range.2 < newMax then newMax else d.active_range.2
        { d with active_range := (min newStart (len - 1), min newEnd (len - 1)) }

/-- `ObjectDetector::get_active_templates`: all `always_active` templates
(first occurrence per name), then the templates of the active index span
that are in bounds, not always-active and not already present by name. -/
def getActiveTemplates (d : ObjectDetector) : List ObjectTemplate :=
  let base := d.templates.foldl
    (fun acc t =>
      if t.always_active && !(acc.any (fun u => u.name == t.name)) then acc ++ [t]
      else acc) []
  (List.range' d.active_range.1 (d.active_range.2 + 1 - d.active_range.1)).foldl
    (fun acc i =>
      match d.templates.get? i with
      | some t =>
          if !t.always_active && !(acc.any (fun u => u.name == t.name)) then acc ++ [t]
          else acc
      | none => acc) base

/-- `ObjectDetector::add_template`.  The image load / grayscale conversion
of `ObjectTemplate::new` is abstracted into the `decoded` argument: `ok t`
is a successfully decoded template, `error` an undecodable image.  The
returned pair is (detector state after the call, call result). -/
def addTemplate (d : ObjectDetector) (decoded : Except Unit ObjectTemplate) :
    ObjectDetector × Except Unit Unit :=
  match decoded with
  | .error e => (d, .error e)
  | .ok t =>
      let ts := d.templates ++ [t]
      ({ d with templates := ts, active_range := (0, ts.length - 1),
                full_range := true },
       .ok ())

/-- Squared Euclidean distance between two integer points, over ℚ. -/
def sqd (a b : Int × Int) : ℚ :=
  ((a.1 - b.1 : Int) : ℚ) ^ 2 + ((a.2 - b.2 : Int) : ℚ) ^ 2

/-- Exact model of the f32 test `sqrt(dx*dx + dy*dy) < min_dist` of
`filter_close_detections`: true iff `min_dist` is positive and the squared
distance is below `min_dist^2`. -/
def tooCloseB (center loc : Int × Int) (minDist : ℚ) : Bool :=
  decide (0 < minDist ∧ sqd center loc < minDist ^ 2)

/-- The sort comparator `|a, b| b.confidence.partial_cmp(&a.confidence)`:
descending by confidence, undefined (`none`) when a NaN is compared. -/
def cmpDesc (a b : DetectionResult) : Option Ordering :=
  F64.pcmp b.confidence a.confidence

/-- Stable insertion of one element into a descending-sorted list, failing
(`none`, the model of the comparator's `.unwrap()` panic) when a needed
comparison is undefined. -/
def insertSorted (x : DetectionResult) :
    List DetectionResult → Option (List DetectionResult)
  | [] => some [x]
  | y :: ys =>
      match cmpDesc x y with
      | none => none
      | some .lt => some (x :: y :: ys)
      | some _ => (insertSorted x ys).map (y :: ·)

/-- Stable sort by descending confidence (model of
`results.sort_by(|a, b| b.confidence.partial_cmp(&a.confidence).unwrap())`):
`none` when a comparison is undefined because of a NaN confidence. -/
def sortByConfDesc (l : List DetectionResult) : Option (List DetectionResult) :=
  l.foldlM (fun acc x => insertSorted x acc) []

/-- The greedy suppression walk of `filter_close_detections`: accept a
candidate iff no occupied `(center, min_dist)` entry is strictly closer
than `min_dist`; an accepted candidate whose template name resolves in the
store records `(location, template.min_distance)` as occupied; a candidate
whose template is missing is silently dropped. -/
def dedupLoop (d : ObjectDetector) (occupied : List ((Int × Int) × ℚ))
    (acc : List DetectionResult) : List DetectionResult → List DetectionResult
  | [] => acc
  | r :: rest =>
      if occupied.any (fun oc => tooCloseB oc.1 r.location oc.2) then
        dedupLoop d occupied acc rest
      else
        match d.templates.find? (fun t => t.name == r.object_name) with
        | some t =>
            dedupLoop d (occupied ++ [(r.location, t.min_distance)]) (acc ++ [r]) rest
        | none => dedupLoop d occupied acc rest

/-- `ObjectDetector::filter_close_detections`: sort by descending
confidence (possibly panicking on NaN, modelled as `none`), then the
greedy suppression walk. -/
def filterCloseDetections (d : ObjectDetector) (results : List DetectionResult) :
    Option (List DetectionResult) :=
  (sortByConfDesc results).map (dedupLoop d [] [])

/-- `detected_numbers` extraction inside `detect_objects_optimized`:
`filter_map` over the flattened results of the trailing-token u32 parse.
Detections whose trailing token does not parse contribute nothing. -/
def detectedNumbers (rs : List DetectionResult) : List Nat :=
  rs.filterMap (fun r => parseTrailingNum r.object_name)

/-- Truncation of a rational toward zero (the rounding of a Rust float to
int cast). -/
def truncQ (q : ℚ) : Int :=
  if 0 ≤ q then ⌊q⌋ else ⌈q⌉

/-- Rust saturating `as i32` cast of a (non-NaN) float value: truncate
toward zero, clamp to the i32 range. -/
def i32cast (q : ℚ) : Int :=
  let t := truncQ q
  if t < -2147483648 then -2147483648
  else if 2147483647 < t then 2147483647
  else t

/-- Mapping of one scaled-surface coordinate back to original frame space:
`(coord as f64 / base_scale_factor) as i32`. -/
def scaleBack (s : ℚ) (coord : Int) : Int :=
  i32cast ((coord : ℚ) / s)

/-- One observed outcome of a `min_max_loc` call in the extraction loop:
either the call fails, or it reports a maximum value and its location on
the scaled response surface. -/
inductive LoopStep where
  | fail : LoopStep
  | found (val : ℚ) (loc : Int × Int) : LoopStep
deriving DecidableEq

/-- Abstracted per-template image operations of one
`detect_objects_optimized` worker: success flags of the four fallible
preparatory operations and the outcome stream of the extraction loop. -/
structure TemplateOps where
  resizeOk : Bool
  matchOk : Bool
  thresholdOk : Bool
  convertOk : Bool
  maxima : List LoopStep
deriving DecidableEq

/-- Success flags of the frame-level preprocessing of
`detect_objects_optimized` (grayscale conversion, frame resize), whose
failures propagate with `?`. -/
structure FrameOps where
  grayOk : Bool
  resizeOk : Bool
deriving DecidableEq

/-- The `min_max_loc` extraction loop of one template worker: a failing
call breaks out keeping what was already extracted; a maximum below the
template threshold stops the loop; otherwise a detection is emitted at the
back-scaled location with the maximum as confidence. -/
def extractLoop (s : ℚ) (name : String) (thr : ℚ) :
    List LoopStep → List DetectionResult
  | [] => []
  | .fail :: _ => []
  | .found v loc :: rest =>
      if v < thr then []
      else { object_name := name,
             location := (scaleBack s loc.1, scaleBack s loc.2),
             confidence := F64.fin v } :: extractLoop s name thr rest

/-- One template worker of `detect_objects_optimized`: each failing
preparatory operation (template resize, correlation, threshold, mask
conversion) returns the empty contribution; otherwise the extraction loop
runs. -/
def matchOneTemplate (s : ℚ) (t : ObjectTemplate) (ops : TemplateOps) :
    List DetectionResult :=
  if !ops.resizeOk then []
  else if !ops.matchOk then []
  else if !ops.thresholdOk then []
  else if !ops.convertOk then []
  else extractLoop s t.name t.threshold ops.maxima

/-- The per-template parallel fan-out of `detect_objects_optimized`: the
list of per-template contributions, each depending only on the template
and its own operation outcomes. -/
def allResults (d : ObjectDetector) (tos : List TemplateOps) :
    List (List DetectionResult) :=
  ((getActiveTemplates d).zip tos).map
    (fun p => matchOneTemplate d.base_scale_factor p.1 p.2)

/-- `ObjectDetector::detect_objects_optimized` (CPU path; elapsed-time
output dropped): frame preprocessing failures propagate as errors, then
the per-template fan-out, the detected-number extraction feeding
`update_active_range`, and deduplication of the flattened results.  The
`Option` in the payload is the NaN-sort-panic possibility of
`filter_close_detections`. -/
def detectObjectsOptimized (d : ObjectDetector) (gray : Bool) (fo : FrameOps)
    (tos : List TemplateOps) :
    Except Unit (ObjectDetector × Option (List DetectionResult)) :=
  if gray && !fo.grayOk then .error ()
  else if !fo.resizeOk then .error ()
  else
    let rs := allResults d tos
    let nums := detectedNumbers rs.flatten
    let d' := updateActiveRange d nums
    .ok (d', filterCloseDetections d' rs.flatten)

/-- The Active-Range well-formedness invariant: start ≤ end, and for a
non-empty store the end index is within `[0, template_count - 1]`. -/
def rangeInv (d : ObjectDetector) : Prop :=
  d.active_range.1 ≤ d.active_range.2 ∧
    (0 < d.templates.length → d.active_range.2 ≤ d.templates.length - 1)

/-- A template fixture with the given name (threshold 1/2, separation 10,
not always-active). -/
def tplNamed (n : String) : ObjectTemplate :=
  { name := n, threshold := 1/2, min_distance := 10, red := 0, green := 0,
    blue := 0, resolution := none, always_active := false }

/-- Detector fixture in full-range state whose store is
["Barrel 0", "Barrel 1"]. -/
def detC1 : ObjectDetector :=
  { templates := [tplNamed "Barrel 0", tplNamed "Barrel 1"],
    base_scale_factor := 1, active_range := (0, 1), full_range := true,
    use_cuda := false }

/-- Detector fixture in narrowed state over the same two-template store,
with active range (1, 1). -/
def detC3 : ObjectDetector :=
  { templates := [tplNamed "Barrel 0", tplNamed "Barrel 1"],
    base_scale_factor := 1, active_range := (1, 1), full_range := false,
    use_cuda := false }

/-- C5: for every detector state, updating with an empty detection list
unconditionally resets to full-range state: active range (0, len-1) with
saturating subtraction for the empty store, and the full-range flag set. -/
theorem c5_empty_detections_full_reset (d : ObjectDetector) :
    updateActiveRange d [] =
      { d with active_range := (0, d.templates.length - 1), full_range := true } :=
  rfl

/-- C9: a successful `add_template` appends the decoded template at the end
of the store, resets the active range to the full store and sets the
full-range flag, and reports success; a failed image decode returns the
error and leaves the detector state unchanged. -/
theorem c9_add_template (d : ObjectDetector) (t : ObjectTemplate) (e : Unit) :
    (addTemplate d (.ok t)).1.templates = d.templates ++ [t] ∧
    (addTemplate d (.ok t)).1.active_range = (0, d.templates.length) ∧
    (addTemplate d (.ok t)).1.full_range = true ∧
    (addTemplate d (.ok t)).2 = .ok () ∧
    addTemplate d (.error e) = (d, .error e) := by
  refine ⟨rfl, ?_, rfl, rfl, rfl⟩
  simp [addTemplate]

/-- C1 (code bug): in full-range state over the store
["Barrel 0", "Barrel 1"], detected levels {5} give `new_min = 0`,
`new_max = 13`, so both indices 0 and 1 qualify and the claimed active
range is (0, 1); the code's scan instead produces (1, 1), because the
start-update guard `i < start || start == 0` misfires after start has been
set to the qualifying index 0. -/
theorem c1_full_range_scan_start_bug :
    (updateActiveRange detC1 [5]).active_range = (1, 1) ∧
      ((1, 1) : Nat × Nat) ≠ (0, 1) := by
  constructor
  · decide
  · decide

/-- C2 (counterexample): a detection whose name has no numeric trailing
token ("Empty") contributes nothing to the detected-level extraction, so a
frame made only of such detections yields the empty level set — not the
claimed non-empty set {0}. -/
theorem c2_counterexample :
    detectedNumbers
      [{ object_name := "Empty", location := (0, 0), confidence := F64.fin 1 }] = [] ∧
    ([] : List Nat) ≠ [0] := by
  constructor
  · decide
  · decide

/-- C2 (amended): the level extraction contributes exactly the values of
the parseable trailing numeric tokens — a level n is extracted iff some
detection's trailing token parses to n — and a frame in which no
detection's trailing token parses yields the empty level set. -/
theorem c2_level_extraction (rs : List DetectionResult) :
    (∀ n : Nat, n ∈ detectedNumbers rs ↔
        ∃ r ∈ rs, parseTrailingNum r.object_name = some n) ∧
    ((∀ r ∈ rs, parseTrailingNum r.object_name = none) → detectedNumbers rs = []) := by
  constructor
  · intro n
    simp [detectedNumbers, List.mem_filterMap]
  · intro h
    simp only [detectedNumbers, List.filterMap_eq_nil_iff]
    exact h

/-- C2 witness: applying the extraction characterization to a concrete
frame of two non-numeric detections. -/
theorem c2_level_extraction_witness :
    detectedNumbers
      [{ object_name := "Empty", location := (0, 0), confidence := F64.fin 1 },
       { object_name := "Cloud", location := (3, 4), confidence := F64.fin (1/2) }] = [] :=
  (c2_level_extraction _).2 (by decide)

/-- C3: in narrowed state (full-range flag cleared), whenever the current
end bound is within the store (the invariant of every reachable state),
any non-empty detection list only grows the active range: the new start is
at most the old start and the new end is at least the old end. -/
theorem c3_narrowed_bounds_monotone (d : ObjectDetector) (n : Nat) (rest : List Nat)
    (hfull : d.full_range = false)
    (hend : d.active_range.2 ≤ d.templates.length - 1) :
    (updateActiveRange d (n :: rest)).active_range.1 ≤ d.active_range.1 ∧
      d.active_range.2 ≤ (updateActiveRange d (n :: rest)).active_range.2 := by
  simp only [updateActiveRange, hfull, Bool.false_eq_true, if_false]
  refine ⟨?_, ?_⟩ <;> split <;> omega

/-- C3 witness: the narrowed two-template fixture with detections {5}
keeps its bounds growing or equal. -/
theorem c3_narrowed_bounds_monotone_witness :
    (updateActiveRange detC3 [5]).active_range.1 ≤ detC3.active_range.1 ∧
      detC3.active_range.2 ≤ (updateActiveRange detC3 [5]).active_range.2 :=
  c3_narrowed_bounds_monotone detC3 5 [] rfl (by decide)

/-- Helper: a fold whose step ignores the item and returns the accumulator
is the identity. -/
theorem foldl_noop {α β : Type _} : ∀ (l : List β) (acc : α),
    l.foldl (fun a _ => a) acc = acc := by
  intro l
  induction l with
  | nil => intro acc; rfl
  | cons b l ih => intro acc; exact ih acc

/-- Helper: the full-range scan loop of `update_active_range` keeps its
running start bound at or below its running end bound. -/
theorem scanFold_le (len newMin newMax : Nat) :
    ∀ (l : List (Nat × ObjectTemplate)) (acc : Nat × Nat), acc.1 ≤ acc.2 →
      (l.foldl (scanStep len newMin newMax) acc).1 ≤
        (l.foldl (scanStep len newMin newMax) acc).2 := by
  intro l
  induction l with
  | nil => intro acc h; simpa using h
  | cons it l ih =>
      intro acc h
      rw [List.foldl_cons]
      apply ih
      cases hp : parseTrailingNum it.2.name with
      | none => simpa [scanStep, hp] using h
      | some num =>
          simp only [scanStep, hp]
          split
          · split <;> split <;> omega
          · exact h

/-- C7: the Active-Range invariant (start ≤ end, and end within
[0, template_count−1] for a non-empty store) holds after construction,
holds after every successful `add_template`, and is preserved by every
`update_active_range` call; moreover an empty template store makes the
active template set empty, so no per-template matching work is produced. -/
theorem c7_active_range_invariant :
    (∀ sf : ℚ, rangeInv (ObjectDetector.new sf)) ∧
    (∀ (d : ObjectDetector) (t : ObjectTemplate),
        rangeInv (addTemplate d (.ok t)).1) ∧
    (∀ (d : ObjectDetector) (detected : List Nat),
        rangeInv d → rangeInv (updateActiveRange d detected)) ∧
    (∀ d : ObjectDetector, d.templates = [] →
        getActiveTemplates d = [] ∧ ∀ tos, allResults d tos = []) := by
  refine ⟨?_, ?_, ?_, ?_⟩
  · intro sf
    simp [rangeInv, ObjectDetector.new]
  · intro d t
    simp [rangeInv, addTemplate]
  · intro d detected h
    cases detected with
    | nil =>
        simp only [updateActiveRange, rangeInv]
        omega
    | cons n rest =>
        cases hf : d.full_range with
        | true =>
            simp only [updateActiveRange, hf, if_true, rangeInv]
            have hse := scanFold_le d.templates.length
              (rest.foldl Nat.min n - 5) (u32wrap (rest.foldl Nat.max n + 8))
              d.templates.enum (0, d.templates.length - 1) (Nat.zero_le _)
            refine ⟨min_le_min hse le_rfl, fun _ => min_le_right _ _⟩
        | false =>
            simp only [updateActiveRange, hf, Bool.false_eq_true, if_false, rangeInv]
            refine ⟨?_, fun _ => min_le_right _ _⟩
            refine min_le_min ?_ le_rfl
            rcases h with ⟨h1, _⟩
            split <;> split <;> omega
  · intro d hd
    have hact : getActiveTemplates d = [] := by
      simp only [getActiveTemplates, hd, List.foldl_nil]
      exact foldl_noop _ _
    exact ⟨hact, fun tos => by simp [allResults, hact]⟩

/-- C7 witness: the invariant, via preservation, for the narrowed fixture
updated with detections {5}. -/
theorem c7_active_range_invariant_witness :
    rangeInv (updateActiveRange detC3 [5]) :=
  c7_active_range_invariant.2.2.1 detC3 [5] (by constructor <;> decide)

/-- Detector fixture for the suppression-radius scenario: "Barrel 1" with
separation distance 10 and "Barrel 2" with separation distance 7. -/
def detC4 : ObjectDetector :=
  { templates := [tplNamed "Barrel 1", { tplNamed "Barrel 2" with min_distance := 7 }],
    base_scale_factor := 1, active_range := (0, 1), full_range := true,
    use_cuda := false }

/-- C4: the deduplicator processes detections in descending-confidence
order (here the higher-confidence detection is listed second and still
wins) and rejects a candidate exactly on strict Euclidean proximity to an
accepted detection: with the accepted detection's separation distance δ,
centers exactly δ−1 apart leave only the higher-confidence detection,
while centers exactly δ+1 apart leave both. -/
theorem c4_suppression_radius (d : ObjectDetector) (t₁ t₂ : ObjectTemplate)
    (n₂ : String) (p q q' : Int × Int) (ca cb δ : ℚ)
    (hconf : cb < ca) (hδ : 1 ≤ δ)
    (hf1 : d.templates.find? (fun t => t.name == t₁.name) = some t₁)
    (hf2 : d.templates.find? (fun t => t.name == n₂) = some t₂)
    (hmd : t₁.min_distance = δ) :
    (sqd p q = (δ - 1) ^ 2 →
      filterCloseDetections d
        [{ object_name := n₂, location := q, confidence := F64.fin cb },
         { object_name := t₁.name, location := p, confidence := F64.fin ca }] =
        some [{ object_name := t₁.name, location := p, confidence := F64.fin ca }]) ∧
    (sqd p q' = (δ + 1) ^ 2 →
      filterCloseDetections d
        [{ object_name := n₂, location := q', confidence := F64.fin cb },
         { object_name := t₁.name, location := p, confidence := F64.fin ca }] =
        some [{ object_name := t₁.name, location := p, confidence := F64.fin ca },
              { object_name := n₂, location := q', confidence := F64.fin cb }]) := by
  have hcmp : compare cb ca = Ordering.lt := compare_lt_iff_lt.mpr hconf
  constructor
  · intro hsq
    have hclose : tooCloseB p q δ = true := by
      simp only [tooCloseB, decide_eq_true_eq]
      refine ⟨by linarith, ?_⟩
      rw [hsq]
      nlinarith
    simp only [filterCloseDetections, sortByConfDesc, List.foldlM_cons, List.foldlM_nil,
      insertSorted, cmpDesc, F64.pcmp, hcmp, Option.bind_eq_bind, Option.some_bind,
      Option.pure_def, Option.map_some']
    simp only [dedupLoop, List.any_nil, Bool.false_eq_true, if_false, hf1, hmd,
      List.any_cons, hclose, Bool.true_or, if_true, List.nil_append]
  · intro hsq
    have hfar : tooCloseB p q' δ = false := by
      simp only [tooCloseB, decide_eq_false_iff_not]
      rintro ⟨-, habs⟩
      rw [hsq] at habs
      nlinarith
    simp only [filterCloseDetections, sortByConfDesc, List.foldlM_cons, List.foldlM_nil,
      insertSorted, cmpDesc, F64.pcmp, hcmp, Option.bind_eq_bind, Option.some_bind,
      Option.pure_def, Option.map_some']
    simp only [dedupLoop, List.any_nil, Bool.false_eq_true, if_false, hf1, hmd,
      List.any_cons, hfar, Bool.false_or, hf2, List.nil_append, List.singleton_append]

/-- C4 witness: with separation distance 10, centers (0,0)/(9,0) leave
only the higher-confidence detection; centers (0,0)/(11,0) leave both. -/
theorem c4_suppression_radius_witness :
    (filterCloseDetections detC4
      [{ object_name := "Barrel 2", location := (9, 0), confidence := F64.fin (1/2) },
       { object_name := "Barrel 1", location := (0, 0), confidence := F64.fin 1 }] =
      some [{ object_name := "Barrel 1", location := (0, 0), confidence := F64.fin 1 }]) ∧
    (filterCloseDetections detC4
      [{ object_name := "Barrel 2", location := (11, 0), confidence := F64.fin (1/2) },
       { object_name := "Barrel 1", location := (0, 0), confidence := F64.fin 1 }] =
      some [{ object_name := "Barrel 1", location := (0, 0), confidence := F64.fin 1 },
            { object_name := "Barrel 2", location := (11, 0), confidence := F64.fin (1/2) }]) := by
  have h := c4_suppression_radius detC4 (tplNamed "Barrel 1")
    { tplNamed "Barrel 2" with min_distance := 7 } "Barrel 2"
    (0, 0) (9, 0) (11, 0) 1 (1/2) 10
    (by norm_num) (by norm_num) rfl rfl rfl
  exact ⟨h.1 (by norm_num [sqd]), h.2 (by norm_num [sqd])⟩

/-- Helper: replacing the i-th element of the second zipped list changes
only the i-th mapped result. -/
theorem zip_set_map_get {α β γ : Type _} (f : α × β → γ) :
    ∀ (as : List α) (bs : List β) (i j : Nat) (b : β), j ≠ i →
      ((as.zip (bs.set i b)).map f).get? j = ((as.zip bs).map f).get? j := by
  intro as
  induction as with
  | nil => intro bs i j b _; rfl
  | cons a as ih =>
      intro bs i j b hne
      cases bs with
      | nil => simp
      | cons b' bs =>
          cases i with
          | zero =>
              cases j with
              | zero => exact absurd rfl hne
              | succ j => simp [List.set]
          | succ i =>
              cases j with
              | zero => rfl
              | succ j =>
                  simpa [List.set] using ih bs i j b (by omega)

/-- C6 (counterexample): when the max-extraction loop succeeds once and
then fails, the template's contribution is the single already-extracted
detection, not the empty list the claim demands for any per-template
failure. -/
theorem c6_counterexample :
    matchOneTemplate 1 (tplNamed "Barrel 1")
      { resizeOk := true, matchOk := true, thresholdOk := true, convertOk := true,
        maxima := [LoopStep.found 1 (0, 0), LoopStep.fail] } =
      [{ object_name := "Barrel 1", location := (0, 0), confidence := F64.fin 1 }] ∧
    [{ object_name := "Barrel 1", location := (0, 0), confidence := F64.fin 1 }] ≠
      ([] : List DetectionResult) := by
  constructor
  · have hloc : scaleBack 1 (0 : Int) = 0 := by
      simp [scaleBack, i32cast, truncQ]
    simp only [matchOneTemplate, Bool.not_true, Bool.false_eq_true, if_false, extractLoop,
      tplNamed]
    rw [if_neg (by norm_num)]
    simp [hloc]
  · simp

/-- C6 (amended): frame-level preprocessing success makes `detect` return
a successful result; a failure of the per-template resize, correlation,
threshold or mask-conversion operation makes that template contribute the
empty list; replacing one template's operation outcomes leaves every other
template's contribution unchanged; and a max-extraction failure stops that
template's loop keeping the detections already extracted. -/
theorem c6_per_template_failure_isolation :
    (∀ (d : ObjectDetector) (gray : Bool) (fo : FrameOps) (tos : List TemplateOps),
        fo.grayOk = true → fo.resizeOk = true →
        ∃ r, detectObjectsOptimized d gray fo tos = .ok r) ∧
    (∀ (s : ℚ) (t : ObjectTemplate) (ops : TemplateOps),
        ops.resizeOk = false ∨ ops.matchOk = false ∨ ops.thresholdOk = false ∨
          ops.convertOk = false →
        matchOneTemplate s t ops = []) ∧
    (∀ (d : ObjectDetector) (tos : List TemplateOps) (i : Nat) (ops' : TemplateOps)
        (j : Nat), j ≠ i →
        (allResults d (tos.set i ops')).get? j = (allResults d tos).get? j) ∧
    (∀ (s : ℚ) (name : String) (thr v : ℚ) (loc : Int × Int) (rest : List LoopStep),
        ¬ v < thr →
        extractLoop s name thr (.found v loc :: .fail :: rest) =
          [{ object_name := name, location := (scaleBack s loc.1, scaleBack s loc.2),
             confidence := F64.fin v }]) := by
  refine ⟨?_, ?_, ?_, ?_⟩
  · intro d gray fo tos h1 h2
    refine ⟨(updateActiveRange d (detectedNumbers (allResults d tos).flatten),
      filterCloseDetections
        (updateActiveRange d (detectedNumbers (allResults d tos).flatten))
        (allResults d tos).flatten), ?_⟩
    simp [detectObjectsOptimized, h1, h2]
  · intro s t ops h
    rcases h with h | h | h | h <;> simp [matchOneTemplate, h]
  · intro d tos i ops' j hne
    simp only [allResults]
    exact zip_set_map_get _ _ _ _ _ _ hne
  · intro s name thr v loc rest hv
    simp [extractLoop, hv]

/-- C6 witness: a concrete `detect` call with successful frame
preprocessing returns a successful result. -/
theorem c6_per_template_failure_isolation_witness :
    ∃ r, detectObjectsOptimized detC1 false { grayOk := true, resizeOk := true } [] =
      Except.ok r :=
  c6_per_template_failure_isolation.1 detC1 false _ [] rfl rfl

/-- C8 (counterexample): with scale factor 1/1048576 and scaled-surface
x-coordinate 1048576, the true truncated quotient is 2^40 = 1099511627776,
but the emitted coordinate is the i32-saturated 2147483647, so the
location is not `truncate(mx/s)` for every s. -/
theorem c8_counterexample :
    (extractLoop (1/1048576) "Barrel 1" 0 [LoopStep.found 1 (1048576, 0)]).map
        (fun r => r.location.1) = [2147483647] ∧
    truncQ (((1048576 : Int) : ℚ) / (1/1048576)) = 1099511627776 ∧
    ((2147483647 : Int) ≠ 1099511627776) := by
  have hq : ((1048576 : Int) : ℚ) / (1/1048576) = ((1099511627776 : ℤ) : ℚ) := by
    norm_num
  have htr : truncQ (((1048576 : Int) : ℚ) / (1/1048576)) = 1099511627776 := by
    rw [truncQ, if_pos (by rw [hq]; positivity), hq, Int.floor_intCast]
  have h1 : scaleBack (1/1048576) (1048576 : Int) = 2147483647 := by
    simp only [scaleBack, i32cast, htr]
    norm_num
  refine ⟨?_, htr, by norm_num⟩
  simp only [extractLoop]
  rw [if_neg (by norm_num)]
  simp only [List.map_cons, List.map_nil]
  rw [h1]

/-- C8 (amended): for every positive scale factor s and every match the
extraction loop emits at scaled coordinate (mx, my), the reported location
is exactly (truncate(mx/s), truncate(my/s)) — integer truncation toward
zero — provided each truncated quotient lies in the i32 range; quotients
outside that range are clamped to the i32 bounds by the saturating cast. -/
theorem c8_scale_round_trip (s : ℚ) (name : String) (thr v : ℚ) (mx my : Int)
    (rest : List LoopStep) (hs : 0 < s) (hv : ¬ v < thr)
    (hx₁ : -2147483648 ≤ truncQ ((mx : ℚ) / s)) (hx₂ : truncQ ((mx : ℚ) / s) ≤ 2147483647)
    (hy₁ : -2147483648 ≤ truncQ ((my : ℚ) / s)) (hy₂ : truncQ ((my : ℚ) / s) ≤ 2147483647) :
    (extractLoop s name thr (.found v (mx, my) :: rest)).head? =
      some { object_name := name,
             location := (truncQ ((mx : ℚ) / s), truncQ ((my : ℚ) / s)),
             confidence := F64.fin v } := by
  have hfit : ∀ q : ℚ, -2147483648 ≤ truncQ q → truncQ q ≤ 2147483647 →
      i32cast q = truncQ q := by
    intro q h1 h2
    simp only [i32cast]
    split
    · omega
    · split
      · omega
      · rfl
  simp only [extractLoop, if_neg hv, List.head?_cons, scaleBack,
    hfit _ hx₁ hx₂, hfit _ hy₁ hy₂]

/-- C8 witness: at scale factor 1 a match at (7, 3) with confidence 1 is
reported at (7, 3). -/
theorem c8_scale_round_trip_witness :
    (extractLoop 1 "Barrel 1" (1/2) [LoopStep.found 1 (7, 3)]).head? =
      some { object_name := "Barrel 1", location := (7, 3), confidence := F64.fin 1 } := by
  have h7 : truncQ (((7 : Int) : ℚ) / 1) = 7 := by
    rw [truncQ, if_pos (by norm_num),
      show ((7 : Int) : ℚ) / 1 = ((7 : ℤ) : ℚ) by norm_num, Int.floor_intCast]
  have h3 : truncQ (((3 : Int) : ℚ) / 1) = 3 := by
    rw [truncQ, if_pos (by norm_num),
      show ((3 : Int) : ℚ) / 1 = ((3 : ℤ) : ℚ) by norm_num, Int.floor_intCast]
  have h := c8_scale_round_trip 1 "Barrel 1" (1/2) 1 7 3 [] (by norm_num) (by norm_num)
    (by rw [h7]; norm_num) (by rw [h7]; norm_num)
    (by rw [h3]; norm_num) (by rw [h3]; norm_num)
  rw [h7, h3] at h
  exact h

/-- Helper: inserting a non-NaN-confidence detection into a list of
non-NaN-confidence detections always succeeds (no comparison is
undefined) and yields a list of non-NaN-confidence detections. -/
theorem insertSorted_total (x : DetectionResult) (hx : x.confidence ≠ F64.nan) :
    ∀ acc : List DetectionResult, (∀ y ∈ acc, y.confidence ≠ F64.nan) →
      ∃ l, insertSorted x acc = some l ∧ ∀ y ∈ l, y.confidence ≠ F64.nan := by
  intro acc
  induction acc with
  | nil =>
      intro _
      refine ⟨[x], rfl, ?_⟩
      intro y hy
      rcases List.mem_singleton.mp hy with rfl
      exact hx
  | cons y ys ih =>
      intro h
      have hy : y.confidence ≠ F64.nan := h y (List.mem_cons_self _ _)
      have hys : ∀ z ∈ ys, z.confidence ≠ F64.nan :=
        fun z hz => h z (List.mem_cons_of_mem _ hz)
      obtain ⟨qx, hqx⟩ : ∃ q, x.confidence = F64.fin q := by
        cases hcx : x.confidence with
        | nan => exact absurd hcx hx
        | fin q => exact ⟨q, rfl⟩
      obtain ⟨qy, hqy⟩ : ∃ q, y.confidence = F64.fin q := by
        cases hcy : y.confidence with
        | nan => exact absurd hcy hy
        | fin q => exact ⟨q, rfl⟩
      have hcmp : cmpDesc x y = some (compare qy qx) := by
        simp [cmpDesc, hqx, hqy, F64.pcmp]
      cases hord : compare qy qx with
      | lt =>
          refine ⟨x :: y :: ys, by simp [insertSorted, hcmp, hord], ?_⟩
          intro z hz
          rcases List.mem_cons.mp hz with rfl | hz
          · exact hx
          rcases List.mem_cons.mp hz with rfl | hz
          · exact hy
          · exact hys z hz
      | eq =>
          obtain ⟨l, hl, hlf⟩ := ih hys
          refine ⟨y :: l, by simp [insertSorted, hcmp, hord, hl], ?_⟩
          intro z hz
          rcases List.mem_cons.mp hz with rfl | hz
          · exact hy
          · exact hlf z hz
      | gt =>
          obtain ⟨l, hl, hlf⟩ := ih hys
          refine ⟨y :: l, by simp [insertSorted, hcmp, hord, hl], ?_⟩
          intro z hz
          rcases List.mem_cons.mp hz with rfl | hz
          · exact hy
          · exact hlf z hz

/-- Helper: the descending-confidence sort succeeds on every list of
detections with non-NaN confidences, from any accumulator of non-NaN
confidences. -/
theorem sortFold_total :
    ∀ (rs acc : List DetectionResult),
      (∀ y ∈ acc, y.confidence ≠ F64.nan) → (∀ r ∈ rs, r.confidence ≠ F64.nan) →
      ∃ l, List.foldlM (fun a x => insertSorted x a) acc rs = some l := by
  intro rs
  induction rs with
  | nil => intro acc _ _; exact ⟨acc, rfl⟩
  | cons r rs ih =>
      intro acc hacc hrs
      have hr : r.confidence ≠ F64.nan := hrs r (List.mem_cons_self _ _)
      obtain ⟨l₁, hl₁, hf₁⟩ := insertSorted_total r hr acc hacc
      obtain ⟨l₂, hl₂⟩ := ih l₁ hf₁ (fun z hz => hrs z (List.mem_cons_of_mem _ hz))
      exact ⟨l₂, by simp [List.foldlM_cons, hl₁, hl₂]⟩

/-- C10: the deduplicator is total on every detection list whose
confidences are all non-NaN — its internal descending-confidence
comparison is always defined, so `filter_close_detections` produces a
result — and the precondition is necessary: the comparison underlying the
sort's `.unwrap()` is undefined whenever one side's confidence is NaN. -/
theorem c10_dedup_total_on_non_nan :
    (∀ (d : ObjectDetector) (rs : List DetectionResult),
        (∀ r ∈ rs, r.confidence ≠ F64.nan) →
        ∃ l, filterCloseDetections d rs = some l) ∧
    (∀ x : F64, F64.pcmp F64.nan x = none ∧ F64.pcmp x F64.nan = none) := by
  constructor
  · intro d rs h
    obtain ⟨l, hl⟩ := sortFold_total rs [] (by simp) h
    exact ⟨dedupLoop d [] [] l, by simp [filterCloseDetections, sortByConfDesc, hl]⟩
  · intro x
    cases x <;> exact ⟨rfl, rfl⟩

/-- C10 witness: a concrete single-detection list with finite confidence
deduplicates successfully. -/
theorem c10_dedup_total_on_non_nan_witness :
    ∃ l, filterCloseDetections detC1
      [{ object_name := "Barrel 1", location := (0, 0), confidence := F64.fin 1 }] =
        some l :=
  c10_dedup_total_on_non_nan.1 detC1 _ (by
    intro r hr
    rcases List.mem_singleton.mp hr with rfl
    simp)
